import Mathlib

/-!
Shallow embedding of the galadex-bot multi-strategy signal engine and
risk-adjusted execution controller, with theorems checking the natural
language specification against the code.

Numeric convention: TypeScript numbers are modelled as exact rationals
(`ℚ`) everywhere the source performs only field arithmetic and
comparisons; the Bollinger Bands strategy, whose code calls
`Math.sqrt`, is modelled over the reals (`ℝ`) so that the standard
deviation is the genuine square root.
-/

set_option maxHeartbeats 1000000

/-- Signal direction, mirroring the `'BUY' | 'SELL' | 'HOLD'` union used
throughout the source. -/
inductive SignalAction where
  | BUY
  | SELL
  | HOLD
deriving DecidableEq, Repr

/-- Mirrors the `TradingSignal` interface of `strategies/tradingStrategy.ts`:
`{action, confidence, reason, targetPrice?, stopLoss?, takeProfit?}`.
Note the interface has no `timestamp` field. -/
structure TradingSignal where
  action : SignalAction
  confidence : ℚ
  reason : String
  targetPrice : Option ℚ := none
  stopLoss : Option ℚ := none
  takeProfit : Option ℚ := none
deriving DecidableEq, Repr

/-! ### Association-list model of the JavaScript `Map`

The source keeps several `Map<string, _>` fields. A JS `Map.set`
overwrites the entry with the given key or appends a fresh one,
`Map.get` returns the entry or `undefined`, `Map.delete` removes it.
With distinct keys this is the first-occurrence association list below. -/

/-- JS `Map.get`: value stored at `k`, if any. -/
def mapGet {α : Type} : List (String × α) → String → Option α
  | [], _ => none
  | kv :: rest, k => if kv.1 = k then some kv.2 else mapGet rest k

/-- JS `Map.set`: replace the first entry with key `k`, else append. -/
def mapSet {α : Type} : List (String × α) → String → α → List (String × α)
  | [], k, v => [(k, v)]
  | kv :: rest, k, v => if kv.1 = k then (k, v) :: rest else kv :: mapSet rest k v

/-- JS `Map.delete`: drop the first entry with key `k`. -/
def mapErase {α : Type} : List (String × α) → String → List (String × α)
  | [], _ => []
  | kv :: rest, k => if kv.1 = k then rest else kv :: mapErase rest k

theorem mapGet_mapSet_self {α : Type} (st : List (String × α)) (k : String) (v : α) :
    mapGet (mapSet st k v) k = some v := by
  induction st with
  | nil => simp [mapGet, mapSet]
  | cons kv rest ih =>
      by_cases h : kv.1 = k
      · simp [mapGet, mapSet, h]
      · simp [mapGet, mapSet, h, ih]

theorem mapErase_mapSet_of_notMem {α : Type} (st : List (String × α)) (k : String) (v : α)
    (h : mapGet st k = none) : mapErase (mapSet st k v) k = st := by
  induction st with
  | nil => simp [mapErase, mapSet]
  | cons kv rest ih =>
      by_cases hk : kv.1 = k
      · simp [mapGet, hk] at h
      · simp [mapGet, hk] at h
        simp [mapErase, mapSet, hk, ih h]

/-! ### List helpers mirroring JS idioms -/

/-- JS `xs.slice(-n)`: the last `n` elements. -/
def takeLast {α : Type} (n : ℕ) (l : List α) : List α :=
  l.drop (l.length - n)

/-- JS `xs[xs.length - 1] || 0` and, on a known-nonempty slice,
`xs[xs.length - 1]`. -/
def lastD (l : List ℚ) : ℚ :=
  l.getLastD 0

/-- JS `xs.reduce((a, b) => a + b, 0) / xs.length`. -/
def listAvg (l : List ℚ) : ℚ :=
  l.sum / (l.length : ℚ)

/-- JS `Math.max(...xs)` on a nonempty list (0 as junk value when empty). -/
def listMax : List ℚ → ℚ
  | [] => 0
  | x :: xs => xs.foldl max x

/-- JS `Math.min(...xs)` on a nonempty list (0 as junk value when empty). -/
def listMin : List ℚ → ℚ
  | [] => 0
  | x :: xs => xs.foldl min x

/-! ### TradingStrategy (strategies/tradingStrategy.ts) -/

/-- `TradingStrategy.analyzeMomentum` (the `symbol` argument is used only
for logging and is dropped): compares the mean of the last 10 prices with
the mean of the 10 before those. -/
def analyzeMomentum (prices : List ℚ) : TradingSignal :=
  if prices.length < 20 then
    { action := .HOLD, confidence := 0, reason := "Insufficient data for momentum analysis" }
  else
    let recent := takeLast 10 prices
    let older := (prices.drop (prices.length - 20)).take 10
    let recentAvg := listAvg recent
    let olderAvg := listAvg older
    let momentum := (recentAvg - olderAvg) / olderAvg
    let momentumPercent := momentum * 100
    if momentumPercent > 2 then
      { action := .BUY, confidence := min (|momentumPercent| / 10) (8/10),
        reason := "Strong upward momentum" }
    else if momentumPercent < -2 then
      { action := .SELL, confidence := min (|momentumPercent| / 10) (8/10),
        reason := "Strong downward momentum" }
    else
      { action := .HOLD, confidence := 0, reason := "No significant momentum" }

/-- `TradingStrategy.analyzeVolume`: inspects the retained volume series
for the token (the price argument is unused by the decision logic). -/
def analyzeVolume (volumes : List ℚ) : TradingSignal :=
  if volumes.length < 5 then
    { action := .HOLD, confidence := 0, reason := "Insufficient volume data" }
  else
    let recentVolume := takeLast 3 volumes
    let avgVolume := listAvg recentVolume
    let currentVolume := lastD recentVolume
    let volFactor := currentVolume / avgVolume
    if volFactor > 3/2 then
      { action := .BUY, confidence := min ((volFactor - 1) * (3/10)) (6/10),
        reason := "High volume spike" }
    else
      { action := .HOLD, confidence := 0, reason := "Normal volume levels" }

/-- `TradingStrategy.analyzeTrend`: 5-period versus 15-period simple
moving average crossover. -/
def analyzeTrend (prices : List ℚ) : TradingSignal :=
  if prices.length < 15 then
    { action := .HOLD, confidence := 0, reason := "Insufficient data for trend analysis" }
  else
    let shortMA := listAvg (takeLast 5 prices)
    let longMA := listAvg (takeLast 15 prices)
    let trendStrength := (shortMA - longMA) / longMA
    let trendPercent := trendStrength * 100
    if trendPercent > 1 then
      { action := .BUY, confidence := min (|trendPercent| / 5) (7/10),
        reason := "Uptrend detected" }
    else if trendPercent < -1 then
      { action := .SELL, confidence := min (|trendPercent| / 5) (7/10),
        reason := "Downtrend detected" }
    else
      { action := .HOLD, confidence := 0, reason := "No clear trend" }

/-- Pure core of `TradingStrategy.analyzeArbitrage`: given the prices of
the successful fee-tier quotes, require at least two of them; the code
sorts descending and takes first and last, i.e. the maximum and minimum. -/
def analyzeArbitrageQuotes (quotes : List ℚ) : TradingSignal :=
  if quotes.length < 2 then
    { action := .HOLD, confidence := 0, reason := "Insufficient arbitrage data" }
  else
    let bestPrice := listMax quotes
    let worstPrice := listMin quotes
    let priceDifference := bestPrice - worstPrice
    let priceDifferencePercent := priceDifference / worstPrice * 100
    if priceDifferencePercent > 1/2 then
      { action := .BUY, confidence := min (priceDifferencePercent / 2) 1,
        reason := "Arbitrage opportunity", targetPrice := some bestPrice }
    else
      { action := .HOLD, confidence := 0, reason := "No significant arbitrage opportunity" }

/-- Weighted BUY score of `TradingStrategy.combineSignals`: the loop adds
`signal.confidence * weight` for every BUY signal. -/
def buyScore (pairs : List (TradingSignal × ℚ)) : ℚ :=
  (pairs.map (fun p => if p.1.action = .BUY then p.1.confidence * p.2 else 0)).sum

/-- Weighted SELL score of `TradingStrategy.combineSignals`. -/
def sellScore (pairs : List (TradingSignal × ℚ)) : ℚ :=
  (pairs.map (fun p => if p.1.action = .SELL then p.1.confidence * p.2 else 0)).sum

/-- Rationales pushed by the loop of `combineSignals`: those of the BUY
and SELL signals, in order. -/
def contributingReasons (pairs : List (TradingSignal × ℚ)) : List String :=
  (pairs.filter (fun p => p.1.action ≠ .HOLD)).map (fun p => p.1.reason)

/-- `TradingStrategy.combineSignals`. The loop walks the two arrays in
lockstep (modelled by `zip`; all callers pass arrays of equal length) and
accumulates the weighted scores; `totalWeight` is accumulated by the
source but never used. -/
def combineSignals (signals : List TradingSignal) (weights : List ℚ) : TradingSignal :=
  let pairs := signals.zip weights
  let netScore := buyScore pairs - sellScore pairs
  let confidence := |netScore|
  if confidence < 3/10 then
    { action := .HOLD, confidence := 0, reason := "Weak signal strength" }
  else
    { action := if netScore > 0 then .BUY else .SELL,
      confidence := min confidence 1,
      reason := String.intercalate "; " (contributingReasons pairs) }

/-- The fixed weight vector of `TradingStrategy.analyzeToken`
(line 81 of the source): arbitrage, momentum, volume, trend. -/
def analyzeTokenWeights : List ℚ := [4/10, 25/100, 2/10, 15/100]

/-- Combination step of `TradingStrategy.analyzeToken` (lines 73-83):
the four strategy signals are combined with the hard-coded weight vector;
the active profile does not appear in this code path. -/
def analyzeTokenCombine (arb mom vol trend : TradingSignal) : TradingSignal :=
  combineSignals [arb, mom, vol, trend] analyzeTokenWeights

/-- JS `signal.reason.split(' ')[0]`, the key used by the cooldown lookup
in `shouldExecuteTrade`. -/
def firstWord (s : String) : String :=
  (s.splitOn " ").headD ""

/-- The cooldown lookup in `shouldExecuteTrade` reads
`(lastSignal as any).timestamp`. The `TradingSignal` interface has no
`timestamp` field and no writer ever adds one, so the JS property access
yields `undefined`; `Date.now() - undefined` is `NaN` and the comparison
`NaN < 300000` is false. The embedding records the absent field as
`none`. -/
def signalTimestamp (_s : TradingSignal) : Option ℤ :=
  none

/-- `TradingStrategy.shouldExecuteTrade(signal, currentBalance)`, with the
`lastSignals` map and the clock made explicit. -/
def shouldExecuteTrade (signal : TradingSignal) (currentBalance : ℚ)
    (lastSignals : List (String × TradingSignal)) (now : ℤ) : Bool :=
  if signal.confidence < 4/10 then false
  else if currentBalance < 100 then false
  else
    match mapGet lastSignals (firstWord signal.reason) with
    | some lastSignal =>
        match signalTimestamp lastSignal with
        | some ts => if now - ts < 300000 then false else true
        | none => true
    | none => true

/-- The Kelly fraction of `TradingStrategy.calculatePositionSize`, from
the hard-coded `winRate = 0.6`, `avgWin = 0.02`, `avgLoss = 0.01`. -/
def kellyFraction : ℚ :=
  (6/10 * (2/100) - (1 - 6/10) * (1/100)) / (2/100)

/-- `TradingStrategy.calculatePositionSize(signal, availableBalance)`. -/
def calculatePositionSize (signal : TradingSignal) (availableBalance : ℚ) : ℚ :=
  let positionSize := min (kellyFraction * availableBalance) (availableBalance * (1/10))
  positionSize * signal.confidence

/-- Decision core of `EnhancedTradingService.processTradingSignal`
(lines 117-131): gate through `shouldExecuteTrade`, then drop any
position size below the minimum trade size of 10; `some size` means a
trade of that size is handed to `executeTrade`, `none` means no trade is
attempted. -/
def processSignalDecision (signal : TradingSignal) (currentBalance : ℚ)
    (lastSignals : List (String × TradingSignal)) (now : ℤ) : Option ℚ :=
  if shouldExecuteTrade signal currentBalance lastSignals now then
    let positionSize := calculatePositionSize signal currentBalance
    if positionSize < 10 then none else some positionSize
  else none

/-! ### FibonacciStrategy (strategies/fibonacciStrategy.ts) -/

/-- Mirrors the `FibonacciSignal` interface. -/
structure FibonacciSignal where
  action : SignalAction
  confidence : ℚ
  reason : String
  fibonacciLevel : ℚ
  targetPrice : ℚ
  currentPrice : ℚ
deriving DecidableEq, Repr

/-- Post-processing step of `FibonacciStrategy.analyzeFibonacci`: a BUY
with a positive profit target whose potential gain reaches 10% gets its
confidence boosted by 0.2, capped at 0.95. -/
def fibBoost (sig : FibonacciSignal) : FibonacciSignal :=
  if sig.action = .BUY ∧ sig.targetPrice > 0 then
    let potentialGain := (sig.targetPrice - sig.currentPrice) / sig.currentPrice
    if potentialGain ≥ 1/10 then
      { sig with confidence := min (95/100) (sig.confidence + 2/10) }
    else sig
  else sig

/-- `FibonacciStrategy.analyzeFibonacci` (the `symbol` argument is used
only for logging): swing high/low over the last 10 prices, retracement
levels below the swing high, extension levels above the swing low, then
the cascade of band tests followed by the 10%-gain confidence boost. -/
def analyzeFibonacci (prices : List ℚ) : FibonacciSignal :=
  if prices.length < 10 then
    { action := .HOLD, confidence := 0, reason := "Insufficient data for Fibonacci analysis",
      fibonacciLevel := 0, targetPrice := 0, currentPrice := lastD prices }
  else
    let recentPrices := takeLast 10 prices
    let currentPrice := lastD recentPrices
    let swingHigh := listMax recentPrices
    let swingLow := listMin recentPrices
    let range := swingHigh - swingLow
    let fib382 := swingHigh - range * (382/1000)
    let fib500 := swingHigh - range * (500/1000)
    let fib618 := swingHigh - range * (618/1000)
    let fib786 := swingHigh - range * (786/1000)
    let ext1272 := swingLow + range * (1272/1000)
    let ext1414 := swingLow + range * (1414/1000)
    let ext1618 := swingLow + range * (1618/1000)
    fibBoost
      (if currentPrice ≤ fib618 ∧ currentPrice ≥ fib786 then
        { action := .BUY, confidence := 8/10,
          reason := "Price at 61.8 percent Fibonacci retracement - strong buy signal",
          fibonacciLevel := 618/1000, targetPrice := ext1618, currentPrice := currentPrice }
      else if currentPrice ≤ fib500 ∧ currentPrice ≥ fib618 then
        { action := .BUY, confidence := 6/10,
          reason := "Price at 50 percent Fibonacci retracement - buy signal",
          fibonacciLevel := 500/1000, targetPrice := ext1414, currentPrice := currentPrice }
      else if currentPrice ≤ fib382 ∧ currentPrice ≥ fib500 then
        { action := .BUY, confidence := 4/10,
          reason := "Price at 38.2 percent Fibonacci retracement - weak buy signal",
          fibonacciLevel := 382/1000, targetPrice := ext1272, currentPrice := currentPrice }
      else if currentPrice ≥ ext1618 then
        { action := .SELL, confidence := 9/10,
          reason := "Price at 161.8 percent Fibonacci extension - strong sell signal",
          fibonacciLevel := 1618/1000, targetPrice := fib618, currentPrice := currentPrice }
      else if currentPrice ≥ ext1414 then
        { action := .SELL, confidence := 7/10,
          reason := "Price at 141.4 percent Fibonacci extension - sell signal",
          fibonacciLevel := 1414/1000, targetPrice := fib500, currentPrice := currentPrice }
      else if currentPrice ≥ ext1272 then
        { action := .SELL, confidence := 5/10,
          reason := "Price at 127.2 percent Fibonacci extension - weak sell signal",
          fibonacciLevel := 1272/1000, targetPrice := fib382, currentPrice := currentPrice }
      else
        { action := .HOLD, confidence := 0, reason := "", fibonacciLevel := 0,
          targetPrice := 0, currentPrice := currentPrice })

/-- The boost never changes a signal's direction. -/
theorem fibBoost_action (sig : FibonacciSignal) : (fibBoost sig).action = sig.action := by
  simp only [fibBoost]
  split_ifs <;> rfl

/-- The boost keeps a positive confidence positive. -/
theorem fibBoost_confidence_pos (sig : FibonacciSignal) (h : 0 < sig.confidence) :
    0 < (fibBoost sig).confidence := by
  simp only [fibBoost]
  split_ifs
  · show (0:ℚ) < min (95/100) (sig.confidence + 2/10)
    exact lt_min (by norm_num) (by linarith)
  · exact h
  · exact h

/-! ### BollingerBandsStrategy (strategies/bollingerBandsStrategy.ts)

The code calls `Math.sqrt`, so this strategy is embedded over `ℝ`. -/

/-- Mirrors the `BollingerBandsSignal` interface. -/
structure BollingerBandsSignal where
  action : SignalAction
  confidence : ℝ
  reason : String
  upperBand : ℝ
  middleBand : ℝ
  lowerBand : ℝ
  price : ℝ

/-- JS `xs[xs.length - 1] || 0` over the reals. -/
noncomputable def lastDR (l : List ℝ) : ℝ :=
  l.getLastD 0

/-- `BollingerBandsStrategy.analyzeBollingerBands` (the `symbol` argument
is used only for logging): 20-period mean and standard deviation, bands
at mean plus or minus 2 standard deviations. -/
noncomputable def analyzeBollingerBands (prices : List ℝ) : BollingerBandsSignal :=
  if prices.length < 20 then
    { action := .HOLD, confidence := 0, reason := "Insufficient data for Bollinger Bands",
      upperBand := 0, middleBand := 0, lowerBand := 0, price := lastDR prices }
  else
    let recentPrices := takeLast 20 prices
    let currentPrice := lastDR recentPrices
    let sma := recentPrices.sum / 20
    let variance := (recentPrices.map (fun price => (price - sma) ^ 2)).sum / 20
    let stdDeviation := Real.sqrt variance
    let upperBand := sma + 2 * stdDeviation
    let lowerBand := sma - 2 * stdDeviation
    if currentPrice ≤ lowerBand then
      { action := .BUY, confidence := min 0.9 ((lowerBand - currentPrice) / lowerBand * 2),
        reason := "Price at lower Bollinger Band - oversold signal",
        upperBand := upperBand, middleBand := sma, lowerBand := lowerBand,
        price := currentPrice }
    else if currentPrice ≥ upperBand then
      { action := .SELL, confidence := min 0.9 ((currentPrice - upperBand) / upperBand * 2),
        reason := "Price at upper Bollinger Band - overbought signal",
        upperBand := upperBand, middleBand := sma, lowerBand := lowerBand,
        price := currentPrice }
    else if currentPrice > sma ∧ currentPrice < upperBand then
      { action := .BUY, confidence := 0.3,
        reason := "Price above middle band - bullish trend",
        upperBand := upperBand, middleBand := sma, lowerBand := lowerBand,
        price := currentPrice }
    else if currentPrice < sma ∧ currentPrice > lowerBand then
      { action := .SELL, confidence := 0.3,
        reason := "Price below middle band - bearish trend",
        upperBand := upperBand, middleBand := sma, lowerBand := lowerBand,
        price := currentPrice }
    else
      { action := .HOLD, confidence := 0, reason := "Price within normal range",
        upperBand := upperBand, middleBand := sma, lowerBand := lowerBand,
        price := currentPrice }

/-! ### DCAStrategy (strategies/dcaStrategy.ts) -/

/-- Mirrors the `DCASignal` interface. -/
structure DCASignal where
  action : SignalAction
  confidence : ℚ
  reason : String
  dcaAmount : ℚ
  averagePrice : ℚ
  currentPrice : ℚ
  dcaCount : ℕ
deriving DecidableEq, Repr

/-- Mirrors the `DCAPosition` interface. -/
structure DCAPosition where
  symbol : String
  totalAmount : ℚ
  totalCost : ℚ
  averagePrice : ℚ
  dcaCount : ℕ
  lastDCATime : ℤ
  targetPrice : ℚ
deriving DecidableEq, Repr

/-- `DCAStrategy.analyzeDCA(symbol, currentPrice)` with the position map
and the clock made explicit. Constants from the source: base amount 100,
maximum count 10, cooldown interval 300000 ms. -/
def analyzeDCA (dcaPositions : List (String × DCAPosition)) (symbol : String)
    (currentPrice : ℚ) (now : ℤ) : DCASignal :=
  match mapGet dcaPositions symbol with
  | none =>
      { action := .BUY, confidence := 6/10, reason := "Starting new DCA position",
        dcaAmount := 100, averagePrice := currentPrice, currentPrice := currentPrice,
        dcaCount := 0 }
  | some position =>
      if now - position.lastDCATime < 300000 then
        { action := .HOLD, confidence := 0, reason := "DCA cooldown active",
          dcaAmount := 0, averagePrice := position.averagePrice,
          currentPrice := currentPrice, dcaCount := position.dcaCount }
      else if position.dcaCount ≥ 10 then
        let profitPercent := (currentPrice - position.averagePrice) / position.averagePrice
        if profitPercent ≥ 5/100 then
          { action := .SELL, confidence := 8/10, reason := "DCA complete - profit achieved",
            dcaAmount := position.totalAmount, averagePrice := position.averagePrice,
            currentPrice := currentPrice, dcaCount := position.dcaCount }
        else
          { action := .HOLD, confidence := 0,
            reason := "DCA complete - waiting for better exit price",
            dcaAmount := 0, averagePrice := position.averagePrice,
            currentPrice := currentPrice, dcaCount := position.dcaCount }
      else
        let priceDiff := (currentPrice - position.averagePrice) / position.averagePrice
        if priceDiff < -(5/100) then
          { action := .BUY, confidence := 8/10, reason := "DCA - price well below average",
            dcaAmount := 100 * (3/2), averagePrice := position.averagePrice,
            currentPrice := currentPrice, dcaCount := position.dcaCount }
        else if priceDiff < -(2/100) then
          { action := .BUY, confidence := 7/10, reason := "DCA - price below average",
            dcaAmount := 100, averagePrice := position.averagePrice,
            currentPrice := currentPrice, dcaCount := position.dcaCount }
        else if priceDiff < 2/100 then
          { action := .BUY, confidence := 4/10, reason := "DCA - price close to average",
            dcaAmount := 100 * (1/2), averagePrice := position.averagePrice,
            currentPrice := currentPrice, dcaCount := position.dcaCount }
        else
          { action := .HOLD, confidence := 0, reason := "Price above DCA average - skipping DCA",
            dcaAmount := 0, averagePrice := position.averagePrice,
            currentPrice := currentPrice, dcaCount := position.dcaCount }

/-- `DCAStrategy.executeDCA(symbol, amount, price)` with the position map
and the clock made explicit; returns the updated position map. -/
def executeDCA (dcaPositions : List (String × DCAPosition)) (symbol : String)
    (amount price : ℚ) (now : ℤ) : List (String × DCAPosition) :=
  match mapGet dcaPositions symbol with
  | none =>
      mapSet dcaPositions symbol
        { symbol := symbol, totalAmount := amount, totalCost := amount * price,
          averagePrice := price, dcaCount := 1, lastDCATime := now,
          targetPrice := price * (11/10) }
  | some position =>
      let newTotalAmount := position.totalAmount + amount
      let newTotalCost := position.totalCost + amount * price
      mapSet dcaPositions symbol
        { position with
          totalAmount := newTotalAmount, totalCost := newTotalCost,
          averagePrice := newTotalCost / newTotalAmount,
          dcaCount := position.dcaCount + 1, lastDCATime := now }

/-! ### Trading profiles (config/tradingProfiles.ts) -/

/-- Mirrors the `StrategyWeights` interface. -/
structure StrategyWeights where
  arbitrage : ℚ
  momentum : ℚ
  volume : ℚ
  trend : ℚ
  bollingerBands : ℚ
  fibonacci : ℚ
  dca : ℚ
deriving DecidableEq, Repr

/-- Mirrors the `enabledStrategies` record of `TradingProfile`. -/
structure EnabledStrategies where
  arbitrage : Bool
  momentum : Bool
  volume : Bool
  trend : Bool
  bollingerBands : Bool
  fibonacci : Bool
  dca : Bool
deriving DecidableEq, Repr

/-- Mirrors the `riskSettings` record of `TradingProfile`. -/
structure RiskSettings where
  maxPositionSize : ℚ
  minConfidenceThreshold : ℚ
  maxDailyLoss : ℚ
  maxDrawdown : ℚ
  tradeCooldownMinutes : ℚ
deriving DecidableEq, Repr

/-- Mirrors the `tradingSettings` record of `TradingProfile`. -/
structure TradingSettings where
  scanIntervalMs : ℚ
  minProfitThreshold : ℚ
  maxSlippage : ℚ
  enableDryRun : Bool
deriving DecidableEq, Repr

/-- Mirrors the `TradingProfile` interface. -/
structure TradingProfile where
  id : String
  name : String
  description : String
  strategyWeights : StrategyWeights
  riskSettings : RiskSettings
  tradingSettings : TradingSettings
  enabledStrategies : EnabledStrategies
deriving DecidableEq, Repr

/-- The built-in `conservative` profile from `DEFAULT_PROFILES`. -/
def conservativeProfile : TradingProfile :=
  { id := "conservative", name := "Conservative",
    description := "Low risk, steady gains with focus on arbitrage and trend following",
    strategyWeights :=
      { arbitrage := 40/100, momentum := 15/100, volume := 10/100, trend := 20/100,
        bollingerBands := 10/100, fibonacci := 5/100, dca := 0 },
    riskSettings :=
      { maxPositionSize := 500, minConfidenceThreshold := 6/10, maxDailyLoss := 25,
        maxDrawdown := 50, tradeCooldownMinutes := 10 },
    tradingSettings :=
      { scanIntervalMs := 60000, minProfitThreshold := 2/100, maxSlippage := 3/100,
        enableDryRun := true },
    enabledStrategies :=
      { arbitrage := true, momentum := true, volume := false, trend := true,
        bollingerBands := true, fibonacci := false, dca := false } }

/-- `Object.values(weights).reduce((sum, weight) => sum + weight, 0)`:
the sum of the seven strategy weights, in declaration order. -/
def weightsTotal (w : StrategyWeights) : ℚ :=
  w.arbitrage + w.momentum + w.volume + w.trend + w.bollingerBands + w.fibonacci + w.dca

/-- `validateStrategyWeights`: the total must be within 0.001 of 1.0. -/
def validateStrategyWeights (weights : StrategyWeights) : Bool :=
  decide (|weightsTotal weights - 1| < 1/1000)

/-- `normalizeStrategyWeights`: divide each weight by the total, unless
the total is zero, in which case the input is returned unchanged. -/
def normalizeStrategyWeights (weights : StrategyWeights) : StrategyWeights :=
  let total := weightsTotal weights
  if total = 0 then weights
  else
    { arbitrage := weights.arbitrage / total, momentum := weights.momentum / total,
      volume := weights.volume / total, trend := weights.trend / total,
      bollingerBands := weights.bollingerBands / total,
      fibonacci := weights.fibonacci / total, dca := weights.dca / total }

/-- `createCustomProfile`: builds a profile after normalizing the given
weights (no validation happens here). -/
def createCustomProfile (id name description : String) (strategyWeights : StrategyWeights)
    (riskSettings : RiskSettings) (tradingSettings : TradingSettings)
    (enabledStrategies : EnabledStrategies) : TradingProfile :=
  { id := id, name := name, description := description,
    strategyWeights := normalizeStrategyWeights strategyWeights,
    riskSettings := riskSettings, tradingSettings := tradingSettings,
    enabledStrategies := enabledStrategies }

/-! ### ProfileManager (services/profileManager.ts) -/

/-- A `Partial<TradingProfile>` as passed to `updateProfile`: each field
optionally present. -/
structure ProfileUpdates where
  id : Option String := none
  name : Option String := none
  description : Option String := none
  strategyWeights : Option StrategyWeights := none
  riskSettings : Option RiskSettings := none
  tradingSettings : Option TradingSettings := none
  enabledStrategies : Option EnabledStrategies := none

/-- JS object spread `{ ...profile, ...updates }`. -/
def applyUpdates (profile : TradingProfile) (updates : ProfileUpdates) : TradingProfile :=
  { id := updates.id.getD profile.id,
    name := updates.name.getD profile.name,
    description := updates.description.getD profile.description,
    strategyWeights := updates.strategyWeights.getD profile.strategyWeights,
    riskSettings := updates.riskSettings.getD profile.riskSettings,
    tradingSettings := updates.tradingSettings.getD profile.tradingSettings,
    enabledStrategies := updates.enabledStrategies.getD profile.enabledStrategies }

/-- `ProfileManager.createProfile`: reject a duplicate id, then reject
invalid weights, otherwise store the profile. Returns the boolean result
paired with the resulting profile store. -/
def createProfile (profiles : List (String × TradingProfile)) (profile : TradingProfile) :
    Bool × List (String × TradingProfile) :=
  if (mapGet profiles profile.id).isSome then (false, profiles)
  else if ¬ validateStrategyWeights profile.strategyWeights then (false, profiles)
  else (true, mapSet profiles profile.id profile)

/-- `ProfileManager.updateProfile`: reject an unknown id, merge the
updates, reject invalid merged weights, otherwise store the merged
profile under the original id. (The source condition
`updatedProfile.strategyWeights && !validateStrategyWeights(...)` always
reaches the validation, because the merged profile always carries a
weights object.) -/
def updateProfile (profiles : List (String × TradingProfile)) (id : String)
    (updates : ProfileUpdates) : Bool × List (String × TradingProfile) :=
  match mapGet profiles id with
  | none => (false, profiles)
  | some profile =>
      let updatedProfile := applyUpdates profile updates
      if ¬ validateStrategyWeights updatedProfile.strategyWeights then (false, profiles)
      else (true, mapSet profiles id updatedProfile)

/-! ### EnhancedTradingService (services/enhancedTradingService.ts) -/

/-- Mirrors the trade `status` union. -/
inductive TradeStatus where
  | PENDING
  | FILLED
  | FAILED
deriving DecidableEq, Repr

/-- Mirrors the `TradeExecution` interface. -/
structure TradeExecution where
  id : String
  token : String
  action : SignalAction
  amount : ℚ
  price : ℚ
  confidence : ℚ
  reason : String
  timestamp : ℤ
  status : TradeStatus
  txHash : Option String
deriving DecidableEq, Repr

/-- The trade record built at the top of `executeTrade`: price 0 until
filled, status `PENDING`. -/
def newTrade (tradeId token : String) (action : SignalAction) (amount confidence : ℚ)
    (reason : String) (now : ℤ) : TradeExecution :=
  { id := tradeId, token := token, action := action, amount := amount, price := 0,
    confidence := confidence, reason := reason, timestamp := now,
    status := .PENDING, txHash := none }

/-- The two mutable collections of `EnhancedTradingService` the trade
lifecycle touches. -/
structure TradingServiceState where
  activeTrades : List (String × TradeExecution)
  tradeHistory : List TradeExecution
deriving DecidableEq, Repr

/-- Outcome of the `executeRealTrade` collaborator call: a successful
swap, a `null` return (its internal catch maps any exception to `null`),
or an exception escaping to `executeTrade`'s own catch block. -/
inductive RealTradeOutcome where
  | filled (price : ℚ) (txHash : String)
  | rejected
  | errored
deriving DecidableEq, Repr

/-- Status resolution of `EnhancedTradingService.executeTrade`: dry-run
simulates a fill at the quoted price; otherwise with trading enabled the
collaborator outcome decides (a `null` result or an escaping exception
both become `FAILED` in the catch block); with trading disabled the trade
fails immediately without any external call. -/
def finalizedTrade (dryRun enableTrading : Bool) (quotedPrice : ℚ)
    (outcome : RealTradeOutcome) (trade : TradeExecution) : TradeExecution :=
  if dryRun then
    { trade with status := .FILLED, price := quotedPrice }
  else if enableTrading then
    match outcome with
    | .filled price txHash =>
        { trade with status := .FILLED, price := price, txHash := some txHash }
    | .rejected => { trade with status := .FAILED }
    | .errored => { trade with status := .FAILED }
  else
    { trade with status := .FAILED }

/-- `EnhancedTradingService.executeTrade` (lines 138-187): create the
trade `PENDING` in the active set, resolve its status, then push it to
the history and delete it from the active set. `quotedPrice` is the value
of `getCurrentPrice(token)` (which itself catches all failures and
returns 0). -/
def executeTrade (dryRun enableTrading : Bool) (quotedPrice : ℚ)
    (outcome : RealTradeOutcome) (tradeId token : String) (action : SignalAction)
    (amount confidence : ℚ) (reason : String) (now : ℤ)
    (st : TradingServiceState) : TradingServiceState :=
  let trade := newTrade tradeId token action amount confidence reason now
  let afterAdd := mapSet st.activeTrades tradeId trade
  { activeTrades := mapErase afterAdd tradeId,
    tradeHistory :=
      st.tradeHistory ++ [finalizedTrade dryRun enableTrading quotedPrice outcome trade] }

/-! ### Spec model of the profile-aware signal combination

`EnhancedTradingService` constructs its `TradingStrategy` with the
current profile and calls `setProfile` on it when switching profiles, but
the `TradingStrategy` class in the sources has a one-argument constructor,
no `setProfile`, and combines with a hard-coded weight vector. The
profile-aware combination the service expects exists in the repository
only through its callers, so it is modelled from the specification for
comparison with the code. -/

/-- Modelled from the spec: the Signal Combiner contract of section 4.3,
"given the per-strategy signals and the active profile's weights
(restricted to enabled strategies), compute buyScore, sellScore, net" and
decide as the combiner does. The profile-aware strategy implementation is
missing from the sources; only its caller `EnhancedTradingService` is
present. -/
def profileCombineSignals (profile : TradingProfile)
    (arb mom vol trend bb fib dcaSig : TradingSignal) : TradingSignal :=
  let candidates : List (Bool × TradingSignal × ℚ) :=
    [(profile.enabledStrategies.arbitrage, arb, profile.strategyWeights.arbitrage),
     (profile.enabledStrategies.momentum, mom, profile.strategyWeights.momentum),
     (profile.enabledStrategies.volume, vol, profile.strategyWeights.volume),
     (profile.enabledStrategies.trend, trend, profile.strategyWeights.trend),
     (profile.enabledStrategies.bollingerBands, bb, profile.strategyWeights.bollingerBands),
     (profile.enabledStrategies.fibonacci, fib, profile.strategyWeights.fibonacci),
     (profile.enabledStrategies.dca, dcaSig, profile.strategyWeights.dca)]
  let enabled := candidates.filter (fun c => c.1)
  combineSignals (enabled.map (fun c => c.2.1)) (enabled.map (fun c => c.2.2))

/-! ## Theorems for the claims -/

/-- C1: the signal combiner computes buyScore as the weighted sum of
confidences over BUY signals and sellScore analogously over SELL signals,
sets net = buyScore - sellScore, and returns HOLD with confidence 0
whenever the absolute value of net is below 0.3; otherwise it returns
BUY when net is positive and SELL otherwise (hence SELL whenever net is
negative), with confidence min of the absolute net and 1. In particular,
one BUY signal with confidence 0.9 at weight 0.4 plus one SELL signal
with confidence 0.2 at weight 0.2, all other signals HOLD, combine to
BUY with confidence 0.32. -/
theorem combineSignals_spec :
    (∀ (signals : List TradingSignal) (weights : List ℚ),
      combineSignals signals weights =
        (let pairs := signals.zip weights
         let net := buyScore pairs - sellScore pairs
         if |net| < 3/10 then
           { action := .HOLD, confidence := 0, reason := "Weak signal strength" }
         else
           { action := if net > 0 then .BUY else .SELL,
             confidence := min |net| 1,
             reason := String.intercalate "; " (contributingReasons pairs) })) ∧
    (combineSignals
        [{ action := .BUY, confidence := 9/10, reason := "buy rationale" },
         { action := .SELL, confidence := 2/10, reason := "sell rationale" },
         { action := .HOLD, confidence := 0, reason := "hold rationale one" },
         { action := .HOLD, confidence := 0, reason := "hold rationale two" }]
        [4/10, 2/10, 2/10, 2/10]).action = .BUY ∧
    (combineSignals
        [{ action := .BUY, confidence := 9/10, reason := "buy rationale" },
         { action := .SELL, confidence := 2/10, reason := "sell rationale" },
         { action := .HOLD, confidence := 0, reason := "hold rationale one" },
         { action := .HOLD, confidence := 0, reason := "hold rationale two" }]
        [4/10, 2/10, 2/10, 2/10]).confidence = 32/100 := by
  refine ⟨fun signals weights => rfl, ?_, ?_⟩ <;>
    · simp [combineSignals, buyScore, sellScore]
      norm_num [abs_of_nonneg]

/-- C3: position sizing computes the Kelly fraction
(winRate·avgWin - (1-winRate)·avgLoss)/avgWin from the hard-coded
winRate 0.6, avgWin 0.02, avgLoss 0.01, caps the position at
min(f·balance, 0.1·balance), and multiplies by the signal's confidence;
with balance 1000 and confidence 0.5 the size is exactly 50; and any
computed size below 10 units makes the signal processor attempt no trade
(it returns the no-trade decision, not an error). -/
theorem calculatePositionSize_spec :
    kellyFraction = (6/10 * (2/100) - (1 - 6/10) * (1/100)) / (2/100) ∧
    (∀ (signal : TradingSignal) (balance : ℚ),
      calculatePositionSize signal balance =
        min (kellyFraction * balance) (balance * (1/10)) * signal.confidence) ∧
    calculatePositionSize
      { action := .BUY, confidence := 1/2, reason := "strong combined signal" } 1000 = 50 ∧
    (∀ (signal : TradingSignal) (balance : ℚ)
      (lastSignals : List (String × TradingSignal)) (now : ℤ),
      calculatePositionSize signal balance < 10 →
      processSignalDecision signal balance lastSignals now = none) := by
  refine ⟨rfl, fun signal balance => rfl, ?_, ?_⟩
  · norm_num [calculatePositionSize, kellyFraction]
  · intro signal balance lastSignals now hsize
    by_cases hg : shouldExecuteTrade signal balance lastSignals now <;>
      simp [processSignalDecision, hg, if_pos hsize]

/-- Closed witness for C3: with balance 100 and confidence 0.5 the
computed size is 5, which is below the floor of 10, and the signal
processor indeed decides not to trade. -/
theorem calculatePositionSize_spec_witness :
    calculatePositionSize
      { action := .BUY, confidence := 1/2, reason := "strong combined signal" } 100 < 10 ∧
    processSignalDecision
      { action := .BUY, confidence := 1/2, reason := "strong combined signal" } 100 [] 0 =
      none :=
  ⟨by norm_num [calculatePositionSize, kellyFraction],
   calculatePositionSize_spec.2.2.2 _ _ _ _
     (by norm_num [calculatePositionSize, kellyFraction])⟩

/-- C10: normalizeStrategyWeights returns weights summing to exactly 1
whenever the input total is nonzero, and returns the input unchanged when
the total is 0; consequently createCustomProfile applied to all-zero
weights produces a profile whose weights sum to 0, which the manager's
validation would reject. -/
theorem normalizeStrategyWeights_spec :
    (∀ w : StrategyWeights, weightsTotal w ≠ 0 →
      weightsTotal (normalizeStrategyWeights w) = 1) ∧
    (∀ w : StrategyWeights, weightsTotal w = 0 → normalizeStrategyWeights w = w) ∧
    ((createCustomProfile "zero" "Zero" "all-zero weights"
        { arbitrage := 0, momentum := 0, volume := 0, trend := 0,
          bollingerBands := 0, fibonacci := 0, dca := 0 }
        conservativeProfile.riskSettings conservativeProfile.tradingSettings
        conservativeProfile.enabledStrategies).strategyWeights =
      { arbitrage := 0, momentum := 0, volume := 0, trend := 0,
        bollingerBands := 0, fibonacci := 0, dca := 0 } ∧
    weightsTotal
      (createCustomProfile "zero" "Zero" "all-zero weights"
        { arbitrage := 0, momentum := 0, volume := 0, trend := 0,
          bollingerBands := 0, fibonacci := 0, dca := 0 }
        conservativeProfile.riskSettings conservativeProfile.tradingSettings
        conservativeProfile.enabledStrategies).strategyWeights = 0 ∧
    validateStrategyWeights
      (createCustomProfile "zero" "Zero" "all-zero weights"
        { arbitrage := 0, momentum := 0, volume := 0, trend := 0,
          bollingerBands := 0, fibonacci := 0, dca := 0 }
        conservativeProfile.riskSettings conservativeProfile.tradingSettings
        conservativeProfile.enabledStrategies).strategyWeights = false) := by
  refine ⟨?_, ?_, ?_, ?_, ?_⟩
  · intro w h
    simp only [normalizeStrategyWeights, weightsTotal] at h ⊢
    rw [if_neg h]
    simp only [weightsTotal]
    rw [div_add_div_same, div_add_div_same, div_add_div_same, div_add_div_same,
      div_add_div_same, div_add_div_same]
    exact div_self h
  · intro w h
    simp only [normalizeStrategyWeights]
    rw [if_pos h]
  · simp [createCustomProfile, normalizeStrategyWeights, weightsTotal]
  · simp [createCustomProfile, normalizeStrategyWeights, weightsTotal]
  · simp [createCustomProfile, normalizeStrategyWeights, weightsTotal,
      validateStrategyWeights]
    norm_num

/-- Closed witness for C10: a weight record of seven ones has total 7 and
normalizes to total exactly 1, while the all-zero record is returned
unchanged. -/
theorem normalizeStrategyWeights_spec_witness :
    weightsTotal
      (normalizeStrategyWeights
        { arbitrage := 1, momentum := 1, volume := 1, trend := 1,
          bollingerBands := 1, fibonacci := 1, dca := 1 }) = 1 ∧
    normalizeStrategyWeights
      { arbitrage := 0, momentum := 0, volume := 0, trend := 0,
        bollingerBands := 0, fibonacci := 0, dca := 0 } =
      { arbitrage := 0, momentum := 0, volume := 0, trend := 0,
        bollingerBands := 0, fibonacci := 0, dca := 0 } :=
  ⟨normalizeStrategyWeights_spec.1 _ (by norm_num [weightsTotal]),
   normalizeStrategyWeights_spec.2.1 _ (by norm_num [weightsTotal])⟩

/-- C4: every strategy returns HOLD with confidence 0 (rather than an
error) on any history shorter than its minimum sample size: Bollinger
Bands 20, Momentum 20, Trend 15, Fibonacci 10, Volume 5. -/
theorem insufficient_history_returns_hold :
    (∀ prices : List ℝ, prices.length < 20 →
      (analyzeBollingerBands prices).action = .HOLD ∧
      (analyzeBollingerBands prices).confidence = 0) ∧
    (∀ prices : List ℚ, prices.length < 20 →
      (analyzeMomentum prices).action = .HOLD ∧ (analyzeMomentum prices).confidence = 0) ∧
    (∀ prices : List ℚ, prices.length < 15 →
      (analyzeTrend prices).action = .HOLD ∧ (analyzeTrend prices).confidence = 0) ∧
    (∀ prices : List ℚ, prices.length < 10 →
      (analyzeFibonacci prices).action = .HOLD ∧
      (analyzeFibonacci prices).confidence = 0) ∧
    (∀ volumes : List ℚ, volumes.length < 5 →
      (analyzeVolume volumes).action = .HOLD ∧ (analyzeVolume volumes).confidence = 0) := by
  refine ⟨?_, ?_, ?_, ?_, ?_⟩ <;> intro l h <;>
    constructor <;>
    simp [analyzeBollingerBands, analyzeMomentum, analyzeTrend, analyzeFibonacci,
      analyzeVolume, if_pos h]

/-- Closed witness for C4: on the empty history every strategy returns
HOLD with confidence 0. -/
theorem insufficient_history_returns_hold_witness :
    ((analyzeBollingerBands []).action = .HOLD ∧
      (analyzeBollingerBands []).confidence = 0) ∧
    ((analyzeMomentum []).action = .HOLD ∧ (analyzeMomentum []).confidence = 0) ∧
    ((analyzeTrend []).action = .HOLD ∧ (analyzeTrend []).confidence = 0) ∧
    ((analyzeFibonacci []).action = .HOLD ∧ (analyzeFibonacci []).confidence = 0) ∧
    ((analyzeVolume []).action = .HOLD ∧ (analyzeVolume []).confidence = 0) :=
  ⟨insufficient_history_returns_hold.1 [] (by norm_num),
   insufficient_history_returns_hold.2.1 [] (by norm_num),
   insufficient_history_returns_hold.2.2.1 [] (by norm_num),
   insufficient_history_returns_hold.2.2.2.1 [] (by norm_num),
   insufficient_history_returns_hold.2.2.2.2 [] (by norm_num)⟩

/-- C7: for a token with no existing DCA position, evaluation returns
BUY with confidence 0.6 and dcaCount 0 (whatever the price and time);
and once a DCA execution records the position, any second evaluation
within the 5-minute (300000 ms) cooldown window returns HOLD with
confidence 0, regardless of the price passed in. -/
theorem dca_first_buy_then_cooldown_hold
    (positions : List (String × DCAPosition)) (symbol : String) (price : ℚ) (now : ℤ)
    (h : mapGet positions symbol = none) :
    ((analyzeDCA positions symbol price now).action = .BUY ∧
     (analyzeDCA positions symbol price now).confidence = 6/10 ∧
     (analyzeDCA positions symbol price now).dcaCount = 0) ∧
    (∀ (amount fillPrice : ℚ) (t : ℤ) (price2 : ℚ) (t2 : ℤ), t2 - t < 300000 →
      (analyzeDCA (executeDCA positions symbol amount fillPrice t) symbol price2 t2).action
          = .HOLD ∧
      (analyzeDCA (executeDCA positions symbol amount fillPrice t) symbol price2 t2).confidence
          = 0) := by
  constructor
  · simp [analyzeDCA, h]
  · intro amount fillPrice t price2 t2 hcool
    have hexec :
        executeDCA positions symbol amount fillPrice t =
          mapSet positions symbol
            { symbol := symbol, totalAmount := amount, totalCost := amount * fillPrice,
              averagePrice := fillPrice, dcaCount := 1, lastDCATime := t,
              targetPrice := fillPrice * (11/10) } := by
      simp [executeDCA, h]
    rw [hexec]
    have hget := mapGet_mapSet_self positions symbol
      { symbol := symbol, totalAmount := amount, totalCost := amount * fillPrice,
        averagePrice := fillPrice, dcaCount := 1, lastDCATime := t,
        targetPrice := fillPrice * (11/10) }
    constructor <;> simp [analyzeDCA, hget, if_pos hcool]

/-- Closed witness for C7: starting from an empty position map, the first
evaluation for GALA is a BUY with confidence 0.6 and dcaCount 0, and
after executing a DCA at time 0 an evaluation at time 100 ms (inside the
cooldown) returns HOLD with confidence 0 even at a very different price. -/
theorem dca_first_buy_then_cooldown_hold_witness :
    ((analyzeDCA [] "GALA" 1 0).action = .BUY ∧
     (analyzeDCA [] "GALA" 1 0).confidence = 6/10 ∧
     (analyzeDCA [] "GALA" 1 0).dcaCount = 0) ∧
    ((analyzeDCA (executeDCA [] "GALA" 100 1 0) "GALA" 42 100).action = .HOLD ∧
     (analyzeDCA (executeDCA [] "GALA" 100 1 0) "GALA" 42 100).confidence = 0) :=
  ⟨(dca_first_buy_then_cooldown_hold [] "GALA" 1 0 rfl).1,
   (dca_first_buy_then_cooldown_hold [] "GALA" 1 0 rfl).2 100 1 0 42 100 (by norm_num)⟩

/-- C9: creating or updating a profile whose strategy weights do not sum
to 1.0 within the 0.001 tolerance returns false and leaves the profile
store unchanged (no profile added, existing profile untouched); a fresh
profile with weights within tolerance is accepted by create, and an
update of an existing profile whose merged weights are within tolerance
is accepted. -/
theorem profile_weight_validation :
    (∀ (profiles : List (String × TradingProfile)) (p : TradingProfile),
      validateStrategyWeights p.strategyWeights = false →
      createProfile profiles p = (false, profiles)) ∧
    (∀ (profiles : List (String × TradingProfile)) (id : String)
      (updates : ProfileUpdates) (p : TradingProfile),
      mapGet profiles id = some p →
      validateStrategyWeights (applyUpdates p updates).strategyWeights = false →
      updateProfile profiles id updates = (false, profiles)) ∧
    (∀ (profiles : List (String × TradingProfile)) (p : TradingProfile),
      mapGet profiles p.id = none →
      validateStrategyWeights p.strategyWeights = true →
      createProfile profiles p = (true, mapSet profiles p.id p)) ∧
    (∀ (profiles : List (String × TradingProfile)) (id : String)
      (updates : ProfileUpdates) (p : TradingProfile),
      mapGet profiles id = some p →
      validateStrategyWeights (applyUpdates p updates).strategyWeights = true →
      updateProfile profiles id updates =
        (true, mapSet profiles id (applyUpdates p updates))) := by
  refine ⟨?_, ?_, ?_, ?_⟩
  · intro profiles p hv
    cases hm : mapGet profiles p.id <;> simp [createProfile, hm, hv]
  · intro profiles id updates p hm hv
    simp [updateProfile, hm, hv]
  · intro profiles p hm hv
    simp [createProfile, hm, hv]
  · intro profiles id updates p hm hv
    simp [updateProfile, hm, hv]

/-- Closed witness for C9: in an empty store, a profile with all-zero
weights is rejected and the store stays empty; the conservative built-in
profile (weights summing to 1) is accepted; updating it with all-zero
weights is rejected leaving the store unchanged; updating it with no
field changes is accepted. -/
theorem profile_weight_validation_witness :
    createProfile []
      { conservativeProfile with
        strategyWeights :=
          { arbitrage := 0, momentum := 0, volume := 0, trend := 0,
            bollingerBands := 0, fibonacci := 0, dca := 0 } } = (false, []) ∧
    createProfile [] conservativeProfile =
      (true, [("conservative", conservativeProfile)]) ∧
    updateProfile [("conservative", conservativeProfile)] "conservative"
      { strategyWeights :=
          some { arbitrage := 0, momentum := 0, volume := 0, trend := 0,
                 bollingerBands := 0, fibonacci := 0, dca := 0 } } =
      (false, [("conservative", conservativeProfile)]) ∧
    updateProfile [("conservative", conservativeProfile)] "conservative" {} =
      (true, [("conservative", conservativeProfile)]) := by
  have h1 := profile_weight_validation.1 []
    { conservativeProfile with
      strategyWeights :=
        { arbitrage := 0, momentum := 0, volume := 0, trend := 0,
          bollingerBands := 0, fibonacci := 0, dca := 0 } }
    (by norm_num [validateStrategyWeights, weightsTotal])
  have h2 := profile_weight_validation.2.2.1 [] conservativeProfile rfl
    (by norm_num [validateStrategyWeights, weightsTotal, conservativeProfile])
  have h3 := profile_weight_validation.2.1 [("conservative", conservativeProfile)]
    "conservative"
    { strategyWeights :=
        some { arbitrage := 0, momentum := 0, volume := 0, trend := 0,
               bollingerBands := 0, fibonacci := 0, dca := 0 } }
    conservativeProfile (by simp [mapGet, conservativeProfile])
    (by norm_num [validateStrategyWeights, weightsTotal, applyUpdates])
  have h4 := profile_weight_validation.2.2.2 [("conservative", conservativeProfile)]
    "conservative" {} conservativeProfile (by simp [mapGet, conservativeProfile])
    (by norm_num [validateStrategyWeights, weightsTotal, applyUpdates, conservativeProfile])
  refine ⟨h1, ?_, ?_, ?_⟩
  · rw [h2]
    simp [mapSet, conservativeProfile]
  · exact h3
  · rw [h4]
    simp [mapSet, applyUpdates, conservativeProfile]

/-- C2: every trade is created with status PENDING, is resolved to
exactly one of FILLED or FAILED (dry-run fills at the quoted price;
trading disabled fails immediately and independently of any collaborator
outcome; an exception from the collaborator fails the trade), is appended
exactly once to the trade history, and is removed from the active set, so
a history containing no PENDING trade still contains none afterwards. -/
theorem executeTrade_lifecycle (dryRun enableTrading : Bool) (quotedPrice : ℚ)
    (outcome : RealTradeOutcome) (tradeId token : String) (action : SignalAction)
    (amount confidence : ℚ) (reason : String) (now : ℤ) (st : TradingServiceState)
    (hfresh : mapGet st.activeTrades tradeId = none)
    (hhist : ∀ t ∈ st.tradeHistory, t.status ≠ TradeStatus.PENDING) :
    (newTrade tradeId token action amount confidence reason now).status =
        TradeStatus.PENDING ∧
    (executeTrade dryRun enableTrading quotedPrice outcome tradeId token action amount
        confidence reason now st).tradeHistory =
      st.tradeHistory ++
        [finalizedTrade dryRun enableTrading quotedPrice outcome
          (newTrade tradeId token action amount confidence reason now)] ∧
    ((finalizedTrade dryRun enableTrading quotedPrice outcome
        (newTrade tradeId token action amount confidence reason now)).status =
          TradeStatus.FILLED ∨
     (finalizedTrade dryRun enableTrading quotedPrice outcome
        (newTrade tradeId token action amount confidence reason now)).status =
          TradeStatus.FAILED) ∧
    (dryRun = true →
      (finalizedTrade dryRun enableTrading quotedPrice outcome
          (newTrade tradeId token action amount confidence reason now)).status =
            TradeStatus.FILLED ∧
      (finalizedTrade dryRun enableTrading quotedPrice outcome
          (newTrade tradeId token action amount confidence reason now)).price =
            quotedPrice) ∧
    (dryRun = false → enableTrading = false →
      ∀ anyOutcome : RealTradeOutcome,
        (finalizedTrade dryRun enableTrading quotedPrice anyOutcome
            (newTrade tradeId token action amount confidence reason now)).status =
          TradeStatus.FAILED) ∧
    (dryRun = false → outcome = RealTradeOutcome.errored →
      (finalizedTrade dryRun enableTrading quotedPrice outcome
          (newTrade tradeId token action amount confidence reason now)).status =
        TradeStatus.FAILED) ∧
    (executeTrade dryRun enableTrading quotedPrice outcome tradeId token action amount
        confidence reason now st).activeTrades = st.activeTrades ∧
    (∀ t ∈ (executeTrade dryRun enableTrading quotedPrice outcome tradeId token action
        amount confidence reason now st).tradeHistory,
      t.status ≠ TradeStatus.PENDING) := by
  refine ⟨rfl, rfl, ?_, ?_, ?_, ?_, ?_, ?_⟩
  · cases outcome <;> unfold finalizedTrade <;> split_ifs <;> simp
  · intro hdry
    subst hdry
    exact ⟨rfl, rfl⟩
  · intro hdry hen anyOutcome
    subst hdry; subst hen
    cases anyOutcome <;> rfl
  · intro hdry herr
    subst hdry; subst herr
    cases enableTrading <;> simp [finalizedTrade]
  · show mapErase (mapSet st.activeTrades tradeId _) tradeId = st.activeTrades
    exact mapErase_mapSet_of_notMem st.activeTrades tradeId _ hfresh
  · intro t ht
    have ht2 : t ∈ st.tradeHistory ++
        [finalizedTrade dryRun enableTrading quotedPrice outcome
          (newTrade tradeId token action amount confidence reason now)] := ht
    rcases List.mem_append.mp ht2 with hin | hin
    · exact hhist t hin
    · have hfin : t = finalizedTrade dryRun enableTrading quotedPrice outcome
          (newTrade tradeId token action amount confidence reason now) := by
        simpa using hin
      subst hfin
      cases outcome <;> unfold finalizedTrade <;> split_ifs <;> simp

/-- Closed witness for C2: a dry-run trade from an empty service state is
simulated as FILLED at the quoted price, lands exactly once in the
history, and leaves the active set empty. -/
theorem executeTrade_lifecycle_witness :
    (executeTrade true false 5 RealTradeOutcome.rejected "trade1" "GALA" SignalAction.BUY
        100 (1/2) "combined buy signal" 0 ⟨[], []⟩).tradeHistory =
      [finalizedTrade true false 5 RealTradeOutcome.rejected
        (newTrade "trade1" "GALA" SignalAction.BUY 100 (1/2) "combined buy signal" 0)] ∧
    (executeTrade true false 5 RealTradeOutcome.rejected "trade1" "GALA" SignalAction.BUY
        100 (1/2) "combined buy signal" 0 ⟨[], []⟩).activeTrades = [] ∧
    (finalizedTrade true false 5 RealTradeOutcome.rejected
        (newTrade "trade1" "GALA" SignalAction.BUY 100 (1/2) "combined buy signal" 0)).status =
      TradeStatus.FILLED ∧
    (finalizedTrade true false 5 RealTradeOutcome.rejected
        (newTrade "trade1" "GALA" SignalAction.BUY 100 (1/2) "combined buy signal" 0)).price =
      5 := by
  have h := executeTrade_lifecycle true false 5 RealTradeOutcome.rejected "trade1" "GALA"
    SignalAction.BUY 100 (1/2) "combined buy signal" 0 ⟨[], []⟩ rfl
    (by intro t ht; simp at ht)
  exact ⟨by simpa using h.2.1, h.2.2.2.2.2.2.1, (h.2.2.2.1 rfl).1, (h.2.2.2.1 rfl).2⟩

/-- Whenever confidence and balance pass their checks, the gate approves:
the cooldown branch can never reject, because the stored signals carry no
timestamp field. -/
theorem shouldExecuteTrade_true_of_confidence_balance (signal : TradingSignal)
    (balance : ℚ) (lastSignals : List (String × TradingSignal)) (now : ℤ)
    (h1 : ¬ signal.confidence < 4/10) (h2 : ¬ balance < 100) :
    shouldExecuteTrade signal balance lastSignals now = true := by
  unfold shouldExecuteTrade
  rw [if_neg h1, if_neg h2]
  cases mapGet lastSignals (firstWord signal.reason) <;> rfl

/-- C8 (code evaluated at the failing input): the execution gate does
reject when confidence is below 0.4 and when balance is below the floor
of 100, but it approves a trade even though a signal for the same token
(GALA, the first word of both rationales) was recorded one minute ago,
inside the 5-minute cooldown window. The cooldown test reads a
`timestamp` property that does not exist on the stored signal, so it can
never reject. -/
theorem shouldExecuteTrade_cooldown_never_rejects :
    shouldExecuteTrade
        { action := .BUY, confidence := 9/10, reason := "GALA arbitrage opportunity" }
        1000
        [("GALA",
          { action := .BUY, confidence := 8/10, reason := "GALA arbitrage opportunity" })]
        60000 = true ∧
    shouldExecuteTrade
        { action := .BUY, confidence := 3/10, reason := "GALA weak signal" } 1000 [] 0 =
      false ∧
    shouldExecuteTrade
        { action := .BUY, confidence := 9/10, reason := "GALA strong signal" } 50 [] 0 =
      false := by
  refine ⟨?_, ?_, ?_⟩
  · exact shouldExecuteTrade_true_of_confidence_balance _ _ _ _ (by norm_num) (by norm_num)
  · unfold shouldExecuteTrade
    rw [if_pos (by norm_num)]
  · unfold shouldExecuteTrade
    rw [if_neg (by norm_num), if_pos (by norm_num)]

/-- C6 (code evaluated at the failing input): with momentum and volume
both BUY at confidence 1 and all other signals HOLD, the combination
performed by analyzeToken yields BUY with confidence 0.45 - it always
applies the fixed weights 0.4/0.25/0.2/0.15 - whereas combining with the
conservative profile's weights restricted to its enabled strategies
(volume disabled, momentum weight 0.15) yields HOLD with confidence 0.
The per-token combination takes no profile input at all, so changing the
active profile's weights cannot change the weights applied. -/
theorem analyzeToken_ignores_profile_weights :
    (analyzeTokenCombine
        { action := .HOLD, confidence := 0, reason := "No significant arbitrage opportunity" }
        { action := .BUY, confidence := 1, reason := "Strong upward momentum" }
        { action := .BUY, confidence := 1, reason := "High volume spike" }
        { action := .HOLD, confidence := 0, reason := "No clear trend" }).action =
      SignalAction.BUY ∧
    (analyzeTokenCombine
        { action := .HOLD, confidence := 0, reason := "No significant arbitrage opportunity" }
        { action := .BUY, confidence := 1, reason := "Strong upward momentum" }
        { action := .BUY, confidence := 1, reason := "High volume spike" }
        { action := .HOLD, confidence := 0, reason := "No clear trend" }).confidence =
      45/100 ∧
    (profileCombineSignals conservativeProfile
        { action := .HOLD, confidence := 0, reason := "No significant arbitrage opportunity" }
        { action := .BUY, confidence := 1, reason := "Strong upward momentum" }
        { action := .BUY, confidence := 1, reason := "High volume spike" }
        { action := .HOLD, confidence := 0, reason := "No clear trend" }
        { action := .HOLD, confidence := 0, reason := "Price within normal range" }
        { action := .HOLD, confidence := 0, reason := "" }
        { action := .HOLD, confidence := 0, reason := "DCA cooldown active" }).action =
      SignalAction.HOLD ∧
    (profileCombineSignals conservativeProfile
        { action := .HOLD, confidence := 0, reason := "No significant arbitrage opportunity" }
        { action := .BUY, confidence := 1, reason := "Strong upward momentum" }
        { action := .BUY, confidence := 1, reason := "High volume spike" }
        { action := .HOLD, confidence := 0, reason := "No clear trend" }
        { action := .HOLD, confidence := 0, reason := "Price within normal range" }
        { action := .HOLD, confidence := 0, reason := "" }
        { action := .HOLD, confidence := 0, reason := "DCA cooldown active" }).confidence =
      0 := by
  refine ⟨?_, ?_, ?_, ?_⟩ <;>
  · simp [analyzeTokenCombine, analyzeTokenWeights, profileCombineSignals,
      conservativeProfile, combineSignals, buyScore, sellScore]
    norm_num [abs_of_nonneg]

/-- Counterexample to C5: on a history of twenty equal prices the
computed standard deviation is 0, the lower band equals the price, the
price is at the computed lower Bollinger band, and the strategy returns
a BUY signal whose confidence is 0 - a non-HOLD signal with confidence
0, contradicting the claimed equivalence. -/
theorem bollinger_buy_with_zero_confidence :
    (analyzeBollingerBands (List.replicate 20 (1:ℝ))).action = SignalAction.BUY ∧
    (analyzeBollingerBands (List.replicate 20 (1:ℝ))).confidence = 0 := by
  have hrep : List.replicate 20 (1:ℝ) = [1,1,1,1,1,1,1,1,1,1,1,1,1,1,1,1,1,1,1,1] := rfl
  constructor <;>
  · rw [hrep]
    simp only [analyzeBollingerBands, takeLast, lastDR]
    norm_num [List.getLastD, Real.sqrt_zero]

/-- C5 as amended: for the signal combiner and for the arbitrage,
momentum, volume, trend, Fibonacci and DCA strategies, direction = HOLD
holds exactly when confidence = 0; the Bollinger Bands strategy still
returns confidence 0 for every HOLD, but the converse fails there: a
price exactly at a computed band can produce a BUY (or SELL) signal with
confidence 0. -/
theorem hold_zero_confidence_invariant :
    (∀ (signals : List TradingSignal) (weights : List ℚ),
      (combineSignals signals weights).action = SignalAction.HOLD ↔
      (combineSignals signals weights).confidence = 0) ∧
    (∀ quotes : List ℚ,
      (analyzeArbitrageQuotes quotes).action = SignalAction.HOLD ↔
      (analyzeArbitrageQuotes quotes).confidence = 0) ∧
    (∀ prices : List ℚ,
      (analyzeMomentum prices).action = SignalAction.HOLD ↔
      (analyzeMomentum prices).confidence = 0) ∧
    (∀ volumes : List ℚ,
      (analyzeVolume volumes).action = SignalAction.HOLD ↔
      (analyzeVolume volumes).confidence = 0) ∧
    (∀ prices : List ℚ,
      (analyzeTrend prices).action = SignalAction.HOLD ↔
      (analyzeTrend prices).confidence = 0) ∧
    (∀ prices : List ℚ,
      (analyzeFibonacci prices).action = SignalAction.HOLD ↔
      (analyzeFibonacci prices).confidence = 0) ∧
    (∀ (positions : List (String × DCAPosition)) (symbol : String) (price : ℚ) (now : ℤ),
      (analyzeDCA positions symbol price now).action = SignalAction.HOLD ↔
      (analyzeDCA positions symbol price now).confidence = 0) ∧
    (∀ prices : List ℝ,
      (analyzeBollingerBands prices).action = SignalAction.HOLD →
      (analyzeBollingerBands prices).confidence = 0) := by
  refine ⟨?_, ?_, ?_, ?_, ?_, ?_, ?_, ?_⟩
  · intro signals weights
    simp only [combineSignals]
    split_ifs with h1 h2 <;> simp_all
    · exact (lt_min (by linarith) one_pos :
        (0:ℚ) < min |buyScore (signals.zip weights) - sellScore (signals.zip weights)| 1).ne'
    · exact (lt_min (by linarith) one_pos :
        (0:ℚ) < min |buyScore (signals.zip weights) - sellScore (signals.zip weights)| 1).ne'
  · intro quotes
    simp only [analyzeArbitrageQuotes]
    split_ifs with h1 h2 <;> simp_all
    exact (lt_min (by linarith) one_pos :
      (0:ℚ) < min ((listMax quotes - listMin quotes) / listMin quotes * 100 / 2) 1).ne'
  · intro prices
    simp only [analyzeMomentum]
    split_ifs with h1 h2 h3 <;> simp_all
    · have habs : (2:ℚ) < |(listAvg (takeLast 10 prices) -
          listAvg ((prices.drop (prices.length - 20)).take 10)) /
          listAvg ((prices.drop (prices.length - 20)).take 10) * 100| :=
        lt_abs.mpr (Or.inl h2)
      exact (lt_min (by linarith) (by norm_num) : (0:ℚ) < min (_ / 10) (8/10)).ne'
    · have habs : (2:ℚ) < |(listAvg (takeLast 10 prices) -
          listAvg ((prices.drop (prices.length - 20)).take 10)) /
          listAvg ((prices.drop (prices.length - 20)).take 10) * 100| :=
        lt_abs.mpr (Or.inr (by linarith))
      exact (lt_min (by linarith) (by norm_num) : (0:ℚ) < min (_ / 10) (8/10)).ne'
  · intro volumes
    simp only [analyzeVolume]
    split_ifs with h1 h2 <;> simp_all
    exact (lt_min (by linarith) (by norm_num) :
      (0:ℚ) < min ((lastD (takeLast 3 volumes) / listAvg (takeLast 3 volumes) - 1) * (3/10))
        (6/10)).ne'
  · intro prices
    simp only [analyzeTrend]
    split_ifs with h1 h2 h3 <;> simp_all
    · have habs : (1:ℚ) < |(listAvg (takeLast 5 prices) - listAvg (takeLast 15 prices)) /
          listAvg (takeLast 15 prices) * 100| :=
        lt_abs.mpr (Or.inl h2)
      exact (lt_min (by linarith) (by norm_num) : (0:ℚ) < min (_ / 5) (7/10)).ne'
    · have habs : (1:ℚ) < |(listAvg (takeLast 5 prices) - listAvg (takeLast 15 prices)) /
          listAvg (takeLast 15 prices) * 100| :=
        lt_abs.mpr (Or.inr (by linarith))
      exact (lt_min (by linarith) (by norm_num) : (0:ℚ) < min (_ / 5) (7/10)).ne'
  · intro prices
    simp only [analyzeFibonacci]
    split_ifs with h1 c1 c2 c3 c4 c5 c6
    · simp
    all_goals
      first
        | (simp [fibBoost]; done)
        | exact iff_of_false (by rw [fibBoost_action]; simp)
            (fibBoost_confidence_pos _ (by norm_num)).ne'
  · intro positions symbol price now
    cases hp : mapGet positions symbol with
    | none => simp [analyzeDCA, hp]
    | some position =>
        simp only [analyzeDCA, hp]
        split_ifs <;> simp_all
  · intro prices
    simp only [analyzeBollingerBands]
    split_ifs <;> intro h <;> simp_all

/-- Closed witness for the amended C5: the combiner on empty inputs
satisfies the equivalence, and the Bollinger strategy's HOLD on an empty
history indeed carries confidence 0. -/
theorem hold_zero_confidence_invariant_witness :
    ((combineSignals [] []).action = SignalAction.HOLD ↔
      (combineSignals [] []).confidence = 0) ∧
    (analyzeBollingerBands []).confidence = 0 :=
  ⟨hold_zero_confidence_invariant.1 [] [],
   hold_zero_confidence_invariant.2.2.2.2.2.2.2 [] (by simp [analyzeBollingerBands])⟩
